import Mathlib

/-!
Shallow embedding of the tower-defense simulation core
(`src/main.rs` of cypressf/tower-defense).

`f32` fields are modelled as `ℚ`, `i32` fields as `ℤ`, `Vec` as `List`,
and fallible operations (Rust index/modulo panics) as `Option`.
The floating-point comparison `distance_to(a, b) < r` (a square root
compared against the range) is rendered by the decidable predicate
`Point.distLt`, proved equivalent to the real-number statement
`Real.sqrt (distSq a b) < r` in `distLt_iff_sqrt` below.
-/

namespace TowerDefense

/-- Source: `const CAMERA_SPEED: f32 = 1.;` -/
def CAMERA_SPEED : ℚ := 1

/-- Source: `struct Point` with `x: f32, y: f32`. -/
structure Point where
  x : ℚ
  y : ℚ
deriving DecidableEq

/-- Source: `Point::new`. -/
def Point.new (x y : ℚ) : Point := ⟨x, y⟩

/-- The squared Euclidean distance, the radicand of `Point::distance_to`:
`(self.x - other.x).powi(2) + (self.y - other.y).powi(2)`. -/
def Point.distSq (a b : Point) : ℚ := (a.x - b.x) ^ 2 + (a.y - b.y) ^ 2

/-- Decidable rendering of `a.distance_to(b) < r`, i.e. of
`sqrt(distSq a b) < r`; equivalence with the square-root form is
`distLt_iff_sqrt`. -/
def Point.distLt (a b : Point) (r : ℚ) : Bool :=
  decide (0 < r ∧ Point.distSq a b < r ^ 2)

/-- Source: `struct TowerType`. -/
structure TowerType where
  name : String
  cost : ℤ
  damage : ℤ
  range : ℚ
  rate_of_fire : ℚ
deriving DecidableEq

/-- Source: `struct Tower`. -/
structure Tower where
  position : Point
  tower_type : TowerType
deriving DecidableEq

/-- Source: `Tower::new`. -/
def Tower.new (position : Point) (tower_type : TowerType) : Tower :=
  ⟨position, tower_type⟩

/-- Source: `struct EnemyType`. -/
structure EnemyType where
  name : String
  max_hit_points : ℤ
  speed : ℚ
  reward : ℤ
deriving DecidableEq

/-- Source: `struct Enemy`. -/
structure Enemy where
  position : Point
  hit_points : ℤ
  enemy_type : EnemyType
deriving DecidableEq

/-- Source: `Enemy::new` — spawns at the origin with full hit points. -/
def Enemy.new (enemy_type : EnemyType) : Enemy :=
  { position := Point.new 0 0
    hit_points := enemy_type.max_hit_points
    enemy_type := enemy_type }

/-- Source: `fn time_since_last_frame() -> f32` returns the constant `0.01`. -/
def time_since_last_frame : ℚ := 1 / 100

/-- `Enemy::advance` generalised over the frame duration it reads from
`time_since_last_frame`: `self.position.x -= self.enemy_type.speed * dt`. -/
def Enemy.advanceWith (dt : ℚ) (e : Enemy) : Enemy :=
  { e with position := { e.position with x := e.position.x - e.enemy_type.speed * dt } }

/-- Source: `Enemy::advance`, which uses the frame timer's value. -/
def Enemy.advance (e : Enemy) : Enemy :=
  e.advanceWith time_since_last_frame

/-- Source: `Enemy::apply_damage`: `self.hit_points -= damage`. -/
def Enemy.apply_damage (e : Enemy) (damage : ℤ) : Enemy :=
  { e with hit_points := e.hit_points - damage }

/-- Source: `Enemy::is_alive`: `self.hit_points > 0`. -/
def Enemy.is_alive (e : Enemy) : Bool :=
  decide (0 < e.hit_points)

/-- Source: `struct GameState`. -/
structure GameState where
  resources : ℤ
  lives : ℤ
  towers : List Tower
  enemies : List Enemy
  camera_position : Point
deriving DecidableEq

/-- Source: `GameState::new`: 100 resources, 10 lives, no towers or
enemies, camera at the origin. -/
def GameState.new : GameState :=
  { resources := 100
    lives := 10
    towers := []
    enemies := []
    camera_position := Point.new 0 0 }

/-- The wave number computed at the top of `GameState::update`:
`let wave = self.enemies.len() / 10 + 1;`. -/
def GameState.wave (s : GameState) : Nat :=
  s.enemies.length / 10 + 1

/-- The spawn loop of `GameState::update`: pushes `wave` copies of
`Enemy::new(enemy_types[wave % enemy_types.len()])`.  An empty catalog
makes the Rust modulo/index panic, modelled as `none`
(in Lean, `wave % 0 = wave` and `l[wave]? = none` for `l = []`). -/
def spawnWave (s : GameState) (enemy_types : List EnemyType) : Option GameState :=
  match enemy_types[s.wave % enemy_types.length]? with
  | none => none
  | some et =>
      some { s with enemies := s.enemies ++ List.replicate s.wave (Enemy.new et) }

/-- Source: `GameState::update` — spawn the wave, then advance every
enemy (including the freshly spawned ones). -/
def GameState.update (s : GameState) (enemy_types : List EnemyType) : Option GameState :=
  (spawnWave s enemy_types).map fun s1 =>
    { s1 with enemies := s1.enemies.map Enemy.advance }

/-- The in-range test of the combat loop in `Game::update`:
`tower.position.distance_to(&enemy.position) < tower.tower_type.range`. -/
def Tower.inRange (t : Tower) (e : Enemy) : Bool :=
  Point.distLt t.position e.position t.tower_type.range

/-- The inner loop of combat resolution: one tower damages every enemy
in its range. -/
def combatTowerStep (enemies : List Enemy) (t : Tower) : List Enemy :=
  enemies.map fun e => if t.inRange e then e.apply_damage t.tower_type.damage else e

/-- The combat-resolution section of `Game::update`: the outer loop over
towers, folded left in the source's order. -/
def resolveCombat (s : GameState) : GameState :=
  { s with enemies := s.towers.foldl combatTowerStep s.enemies }

/-- The settlement section of `Game::update`: sum the rewards of the
defeated enemies, retain the live ones, credit the total. -/
def settle (s : GameState) : GameState :=
  let total_reward : ℤ :=
    ((s.enemies.filter fun e => ! e.is_alive).map fun e => e.enemy_type.reward).sum
  { s with
    enemies := s.enemies.filter fun e => e.is_alive
    resources := s.resources + total_reward }

/-- The outcome signal of §4.6; the source prints "You win!" /
"You lose!" in an `if` / `else if` chain in this order. -/
inductive Outcome where
  | Ongoing
  | Win
  | Loss
deriving DecidableEq

/-- The win/loss check at the end of `Game::update`:
`if enemies.is_empty` then win, `else if lives <= 0` then lose. -/
def evaluateOutcome (s : GameState) : Outcome :=
  if s.enemies.isEmpty then Outcome.Win
  else if s.lives ≤ 0 then Outcome.Loss
  else Outcome.Ongoing

/-- Source: `Game::update` — one full simulation tick: spawn + movement
(`GameState::update`), combat resolution, settlement, then the win/loss
check on the settled state. -/
def gameTick (s : GameState) (enemy_types : List EnemyType) :
    Option (GameState × Outcome) :=
  (s.update enemy_types).map fun s1 =>
    let s2 := resolveCombat s1
    let s3 := settle s2
    (s3, evaluateOutcome s3)

/-- Source: the `Key::Space` branch of `main`'s event loop, parameterised
over the tower type it places (the source always passes
`tower_types[0]`): gate on `resources >= cost`, push a tower at the
camera position, debit the cost; otherwise do nothing. -/
def handleSpaceKey (s : GameState) (tower_type : TowerType) : GameState :=
  if tower_type.cost ≤ s.resources then
    { s with
      towers := s.towers ++ [Tower.new s.camera_position tower_type]
      resources := s.resources - tower_type.cost }
  else s

/-- The error taxonomy of §7 for tower placement. -/
inductive PlaceError where
  | InsufficientResources
deriving DecidableEq

/-- Modelled from the spec: §4.7's `place_tower` contract
(`Result<(), InsufficientResources>`) is not a named function in the
source — `main` inlines the handler (`handleSpaceKey`) and its failure
branch is silent.  This definition wraps the source handler's two
branches in the spec's result type; agreement with `handleSpaceKey` is
proved in the C5 theorem. -/
def place_tower (s : GameState) (tower_type : TowerType) :
    Except PlaceError GameState :=
  if tower_type.cost ≤ s.resources then
    Except.ok
      { s with
        towers := s.towers ++ [Tower.new s.camera_position tower_type]
        resources := s.resources - tower_type.cost }
  else Except.error PlaceError.InsufficientResources

/-- The four camera keys of `main`'s event loop. -/
inductive CameraKey where
  | keyW
  | keyA
  | keyS
  | keyD
deriving DecidableEq

/-- Source: the `Key::W` / `Key::A` / `Key::S` / `Key::D` branches of
`main`'s event loop: move the camera by `CAMERA_SPEED`. -/
def moveCamera (s : GameState) : CameraKey → GameState
  | CameraKey.keyW =>
      { s with camera_position := { s.camera_position with y := s.camera_position.y + CAMERA_SPEED } }
  | CameraKey.keyA =>
      { s with camera_position := { s.camera_position with x := s.camera_position.x - CAMERA_SPEED } }
  | CameraKey.keyS =>
      { s with camera_position := { s.camera_position with y := s.camera_position.y - CAMERA_SPEED } }
  | CameraKey.keyD =>
      { s with camera_position := { s.camera_position with x := s.camera_position.x + CAMERA_SPEED } }

/-- Source: `struct Game`. -/
structure Game where
  state : GameState
  tower_types : List TowerType
  enemy_types : List EnemyType
deriving DecidableEq

/-- Source: `Game::new` — fresh state and *empty* catalogs (main fills the
catalogs afterwards); no validation of any kind is performed. -/
def Game.new : Game :=
  { state := GameState.new
    tower_types := []
    enemy_types := [] }

/-- The states reachable from `GameState::new` by the operations the
source performs on the state: full simulation ticks, tower placement,
and camera movement (the catalog is fixed for the session, as in
`main`). -/
inductive Reachable (enemy_types : List EnemyType) : GameState → Prop
  | init : Reachable enemy_types GameState.new
  | tick {s s' : GameState} {o : Outcome} :
      Reachable enemy_types s → gameTick s enemy_types = some (s', o) →
      Reachable enemy_types s'
  | place {s : GameState} (tower_type : TowerType) :
      Reachable enemy_types s → Reachable enemy_types (handleSpaceKey s tower_type)
  | camera {s : GameState} (k : CameraKey) :
      Reachable enemy_types s → Reachable enemy_types (moveCamera s k)

/-- Concrete fixture from `main`: the "Goblin" enemy type. -/
def goblin : EnemyType :=
  { name := "Goblin", max_hit_points := 10, speed := 2, reward := 20 }

/-- Concrete fixture from `main`: the "Archer Tower" tower type. -/
def archerTower : TowerType :=
  { name := "Archer Tower", cost := 50, damage := 5, range := 100, rate_of_fire := 1 }

/-- Concrete fixture for boundary tests: a tower at the origin with range 1
and damage 5. -/
def unitTower : Tower :=
  Tower.new (Point.new 0 0)
    { name := "Unit", cost := 0, damage := 5, range := 1, rate_of_fire := 1 }

/-! ## Helper lemmas -/

theorem spawnWave_fields {s s1 : GameState} {ets : List EnemyType}
    (h : spawnWave s ets = some s1) :
    s1.lives = s.lives ∧ s1.towers = s.towers ∧
    s1.camera_position = s.camera_position ∧ s1.resources = s.resources := by
  unfold spawnWave at h
  cases he : ets[s.wave % ets.length]? with
  | none => rw [he] at h; exact absurd h (by simp)
  | some et =>
      rw [he] at h
      cases h
      exact ⟨rfl, rfl, rfl, rfl⟩

theorem update_fields {s s1 : GameState} {ets : List EnemyType}
    (h : s.update ets = some s1) :
    s1.lives = s.lives ∧ s1.towers = s.towers ∧
    s1.camera_position = s.camera_position ∧ s1.resources = s.resources := by
  unfold GameState.update at h
  cases hw : spawnWave s ets with
  | none => rw [hw] at h; exact absurd h (by simp)
  | some s0 =>
      rw [hw] at h
      cases h
      have := spawnWave_fields hw
      exact ⟨this.1, this.2.1, this.2.2.1, this.2.2.2⟩

theorem gameTick_fields {s s' : GameState} {ets : List EnemyType} {o : Outcome}
    (h : gameTick s ets = some (s', o)) :
    s'.lives = s.lives ∧ s'.towers = s.towers ∧
    s'.camera_position = s.camera_position := by
  unfold gameTick at h
  cases hu : s.update ets with
  | none => rw [hu] at h; exact absurd h (by simp)
  | some s1 =>
      rw [hu] at h
      have h' : (settle (resolveCombat s1),
          evaluateOutcome (settle (resolveCombat s1))) = (s', o) := by
        simpa using h
      have hs : settle (resolveCombat s1) = s' := congrArg Prod.fst h'
      have hf := update_fields hu
      rw [← hs]
      exact ⟨hf.1, hf.2.1, hf.2.2.1⟩

theorem handleSpaceKey_lives (s : GameState) (tt : TowerType) :
    (handleSpaceKey s tt).lives = s.lives := by
  unfold handleSpaceKey
  split <;> rfl

theorem moveCamera_lives (s : GameState) (k : CameraKey) :
    (moveCamera s k).lives = s.lives := by
  cases k <;> rfl

/-! ## Claims -/

/-- C4: settlement removes exactly the enemies with `hit_points <= 0`,
keeps the survivors unchanged (in order), and credits resources with the
sum of the removed enemies' rewards; towers, lives and camera are
untouched. -/
theorem settle_removes_defeated (s : GameState) :
    (settle s).enemies = s.enemies.filter (fun e => decide (0 < e.hit_points)) ∧
    (settle s).resources = s.resources +
      ((s.enemies.filter fun e => decide (e.hit_points ≤ 0)).map
        fun e => e.enemy_type.reward).sum ∧
    (settle s).towers = s.towers ∧ (settle s).lives = s.lives ∧
    (settle s).camera_position = s.camera_position := by
  have hfil : (s.enemies.filter fun e => ! e.is_alive) =
      s.enemies.filter fun e => decide (e.hit_points ≤ 0) := by
    apply List.filter_congr
    intro e _
    by_cases hp : 0 < e.hit_points
    · simp [Enemy.is_alive, hp, not_le.mpr hp]
    · simp [Enemy.is_alive, hp, not_lt.mp hp]
  refine ⟨rfl, ?_, rfl, rfl, rfl⟩
  simp only [settle, hfil]

/-- C5: tower placement succeeds iff `resources >= cost`; on success it
appends one tower at the camera position and debits exactly the cost; on
failure the state is unchanged and `InsufficientResources` is signalled
(the spec-level `place_tower` contract agrees with the source's inline
Space-key handler on both branches). -/
theorem place_tower_gating (s : GameState) (tower_type : TowerType) :
    ((∃ s', place_tower s tower_type = Except.ok s') ↔ tower_type.cost ≤ s.resources) ∧
    (tower_type.cost ≤ s.resources →
      place_tower s tower_type = Except.ok (handleSpaceKey s tower_type) ∧
      (handleSpaceKey s tower_type).towers =
        s.towers ++ [Tower.new s.camera_position tower_type] ∧
      (handleSpaceKey s tower_type).resources = s.resources - tower_type.cost ∧
      (handleSpaceKey s tower_type).enemies = s.enemies ∧
      (handleSpaceKey s tower_type).lives = s.lives ∧
      (handleSpaceKey s tower_type).camera_position = s.camera_position) ∧
    (s.resources < tower_type.cost →
      place_tower s tower_type = Except.error PlaceError.InsufficientResources ∧
      handleSpaceKey s tower_type = s) := by
  by_cases h : tower_type.cost ≤ s.resources
  · refine ⟨?_, fun _ => ?_, fun hlt => absurd h (not_le.mpr hlt)⟩
    · simp [place_tower, h]
    · simp [place_tower, handleSpaceKey, h]
  · refine ⟨?_, fun hle => absurd hle h, fun _ => ?_⟩
    · simp [place_tower, h]
    · simp [place_tower, handleSpaceKey, h]

/-- Witness for C5: with the starting 100 resources an Archer Tower
(cost 50) is placed, while a 200-cost variant is refused with the state
unchanged. -/
theorem place_tower_gating_witness :
    place_tower GameState.new archerTower =
      Except.ok (handleSpaceKey GameState.new archerTower) ∧
    place_tower GameState.new { archerTower with cost := 200 } =
      Except.error PlaceError.InsufficientResources ∧
    handleSpaceKey GameState.new { archerTower with cost := 200 } = GameState.new :=
  ⟨((place_tower_gating GameState.new archerTower).2.1 (by decide)).1,
   ((place_tower_gating GameState.new { archerTower with cost := 200 }).2.2
      (by decide)).1,
   ((place_tower_gating GameState.new { archerTower with cost := 200 }).2.2
      (by decide)).2⟩

/-- C6: post-settlement outcome evaluation: `Win` when the enemy list is
empty (also when lives are simultaneously `<= 0`, so Win takes
precedence), `Loss` when enemies remain and lives `<= 0`, otherwise
`Ongoing`. -/
theorem outcome_evaluation (s : GameState) :
    (s.enemies = [] → evaluateOutcome s = Outcome.Win) ∧
    (s.enemies = [] → s.lives ≤ 0 → evaluateOutcome s = Outcome.Win) ∧
    (s.enemies ≠ [] → s.lives ≤ 0 → evaluateOutcome s = Outcome.Loss) ∧
    (s.enemies ≠ [] → 0 < s.lives → evaluateOutcome s = Outcome.Ongoing) := by
  refine ⟨fun h => ?_, fun h _ => ?_, fun h hl => ?_, fun h hl => ?_⟩
  · simp [evaluateOutcome, h]
  · simp [evaluateOutcome, h]
  · simp [evaluateOutcome, h, hl]
  · simp [evaluateOutcome, h, hl, not_le.mpr hl]

/-- Witness for C6: Win with empty enemies even at zero lives; Loss with
an enemy alive at zero lives; Ongoing with an enemy alive at ten lives. -/
theorem outcome_evaluation_witness :
    evaluateOutcome { GameState.new with lives := 0 } = Outcome.Win ∧
    evaluateOutcome { GameState.new with enemies := [Enemy.new goblin], lives := 0 } =
      Outcome.Loss ∧
    evaluateOutcome { GameState.new with enemies := [Enemy.new goblin] } =
      Outcome.Ongoing :=
  ⟨(outcome_evaluation _).2.1 rfl (by decide),
   (outcome_evaluation _).2.2.1 (by simp) (by decide),
   (outcome_evaluation _).2.2.2 (by simp) (by decide)⟩

/-- C7 (amended): for every enemy whose type has positive speed and
every positive frame duration, one movement step decreases `position.x`
by exactly `speed * dt` — in particular strictly — and leaves
`position.y` unchanged; the source's `Enemy::advance` is this step at
the frame timer's value. -/
theorem advance_decreases_x (e : Enemy) (dt : ℚ)
    (hs : 0 < e.enemy_type.speed) (hdt : 0 < dt) :
    (e.advanceWith dt).position.x = e.position.x - e.enemy_type.speed * dt ∧
    (e.advanceWith dt).position.x < e.position.x ∧
    (e.advanceWith dt).position.y = e.position.y ∧
    e.advance = e.advanceWith time_since_last_frame := by
  refine ⟨rfl, ?_, rfl, rfl⟩
  have : 0 < e.enemy_type.speed * dt := mul_pos hs hdt
  simpa [Enemy.advanceWith] using sub_lt_self e.position.x this

/-- Witness for C7's amended theorem: a goblin (speed 2) advanced for one
second strictly loses x. -/
theorem advance_decreases_x_witness :
    (0:ℚ) < (Enemy.new goblin).enemy_type.speed ∧ (0:ℚ) < 1 ∧
    ((Enemy.new goblin).advanceWith 1).position.x < (Enemy.new goblin).position.x := by
  have h1 : (0:ℚ) < (Enemy.new goblin).enemy_type.speed := by
    norm_num [Enemy.new, goblin]
  have h2 : (0:ℚ) < 1 := by norm_num
  exact ⟨h1, h2, (advance_decreases_x (Enemy.new goblin) 1 h1 h2).2.1⟩

/-- Counterexample for C7 as stated: an enemy whose type has speed 0,
advanced for the positive duration 1, does not strictly decrease its
`position.x` (it stays at 5). -/
theorem advance_zero_speed_no_decrease :
    (0:ℚ) < 1 ∧
    ¬ ((Enemy.advanceWith 1
          { position := Point.new 5 5, hit_points := 10,
            enemy_type := { name := "Snail", max_hit_points := 10,
                            speed := 0, reward := 20 } }).position.x
        < (Point.new 5 5).x) := by
  constructor
  · norm_num
  · norm_num [Enemy.advanceWith, Point.new]

/-- C9 (amended): given a non-empty catalog, the catalog index
`wave mod len` is in bounds and spawning, the spawn-and-advance update,
and the full tick are total. -/
theorem spawn_total_nonempty (s : GameState) (ets : List EnemyType)
    (h : ets ≠ []) :
    s.wave % ets.length < ets.length ∧
    (spawnWave s ets).isSome ∧ (s.update ets).isSome ∧
    (gameTick s ets).isSome := by
  have hlen : 0 < ets.length := List.length_pos.mpr h
  have hidx : s.wave % ets.length < ets.length := Nat.mod_lt _ hlen
  have hsw : spawnWave s ets =
      some { s with enemies :=
        s.enemies ++ List.replicate s.wave (Enemy.new ets[s.wave % ets.length]) } := by
    unfold spawnWave
    rw [List.getElem?_eq_getElem hidx]
  refine ⟨hidx, ?_, ?_, ?_⟩
  · rw [hsw]; rfl
  · unfold GameState.update; rw [hsw]; rfl
  · unfold gameTick GameState.update; rw [hsw]; rfl

/-- Witness for C9's amended theorem: a singleton catalog keeps the
index in bounds and the tick total. -/
theorem spawn_total_nonempty_witness :
    GameState.new.wave % ([goblin] : List EnemyType).length <
      ([goblin] : List EnemyType).length ∧
    (spawnWave GameState.new [goblin]).isSome ∧
    (GameState.new.update [goblin]).isSome ∧
    (gameTick GameState.new [goblin]).isSome :=
  spawn_total_nonempty GameState.new [goblin] (by simp)

/-- Counterexample for C9 as stated: `Game::new` performs no catalog
check — it succeeds with empty catalogs — and with that empty catalog
the failure surfaces only at spawn time (modelled as `none`, an
index/modulo panic in the source), not as a start-up
`ConfigurationError`. -/
theorem game_new_accepts_empty_catalog :
    Game.new.enemy_types = [] ∧ Game.new.tower_types = [] ∧
    spawnWave Game.new.state Game.new.enemy_types = none ∧
    gameTick Game.new.state Game.new.enemy_types = none :=
  ⟨rfl, rfl, rfl, rfl⟩

/-- C1: one spawn step with `n` live enemies and a non-empty catalog
appends exactly `n / 10 + 1` new enemies, each instantiated from
`enemy_types[(n / 10 + 1) % len]`, each at full hit points and at the
origin; nothing else in the state changes. -/
theorem spawnWave_spec (s : GameState) (ets : List EnemyType) (h : ets ≠ []) :
    ∃ et s',
      ets[(s.enemies.length / 10 + 1) % ets.length]? = some et ∧
      spawnWave s ets = some s' ∧
      s'.enemies = s.enemies ++
        List.replicate (s.enemies.length / 10 + 1) (Enemy.new et) ∧
      s'.enemies.length = s.enemies.length + (s.enemies.length / 10 + 1) ∧
      (∀ e ∈ List.replicate (s.enemies.length / 10 + 1) (Enemy.new et),
        e.hit_points = et.max_hit_points ∧ e.position = Point.new 0 0 ∧
        e.enemy_type = et) ∧
      s'.resources = s.resources ∧ s'.lives = s.lives ∧ s'.towers = s.towers ∧
      s'.camera_position = s.camera_position := by
  have hlen : 0 < ets.length := List.length_pos.mpr h
  have hidx : (s.enemies.length / 10 + 1) % ets.length < ets.length :=
    Nat.mod_lt _ hlen
  have he : ets[(s.enemies.length / 10 + 1) % ets.length]? =
      some ets[(s.enemies.length / 10 + 1) % ets.length] :=
    List.getElem?_eq_getElem hidx
  set et := ets[(s.enemies.length / 10 + 1) % ets.length] with het
  refine ⟨et, { s with enemies := s.enemies ++ List.replicate (s.enemies.length / 10 + 1) (Enemy.new et) },
    he, ?_, rfl, ?_, ?_, rfl, rfl, rfl, rfl⟩
  · unfold spawnWave GameState.wave
    rw [he]
  · simp
  · intro e hmem
    have : e = Enemy.new et := List.eq_of_mem_replicate hmem
    subst this
    exact ⟨rfl, rfl, rfl⟩

/-- Witness for C1: from the fresh state (0 enemies) and the singleton
goblin catalog, one spawn step appends exactly one full-health goblin at
the origin. -/
theorem spawnWave_spec_witness :
    ∃ et s',
      ([goblin] : List EnemyType)[(GameState.new.enemies.length / 10 + 1) %
        ([goblin] : List EnemyType).length]? = some et ∧
      spawnWave GameState.new [goblin] = some s' ∧
      s'.enemies = GameState.new.enemies ++
        List.replicate (GameState.new.enemies.length / 10 + 1) (Enemy.new et) := by
  obtain ⟨et, s', h1, h2, h3, -⟩ := spawnWave_spec GameState.new [goblin] (by simp)
  exact ⟨et, s', h1, h2, h3⟩

/-- A tower's in-range test only reads the enemy's position, which taking
damage never changes. -/
theorem inRange_apply_damage (t' : Tower) (e : Enemy) (d : ℤ) :
    t'.inRange (e.apply_damage d) = t'.inRange e := rfl

/-- Closed form of the combat fold: after the full tower loop, each
enemy's hit points went down by exactly the summed damage of the towers
that have it in range, and nothing else about it changed. -/
theorem foldl_combatTowerStep (ts : List Tower) (es : List Enemy) :
    ts.foldl combatTowerStep es =
      es.map fun e =>
        { e with hit_points := e.hit_points -
            ((ts.filter fun t => t.inRange e).map fun t => t.tower_type.damage).sum } := by
  induction ts generalizing es with
  | nil =>
      simp only [List.foldl_nil, List.filter_nil, List.map_nil, List.sum_nil,
        sub_zero]
      exact (List.map_id es).symm
  | cons t ts ih =>
      simp only [List.foldl_cons]
      rw [ih]
      unfold combatTowerStep
      rw [List.map_map]
      apply List.map_congr_left
      intro e _
      by_cases hr : t.inRange e
      · simp only [Function.comp_apply, hr, if_true]
        simp only [inRange_apply_damage]
        simp only [Enemy.apply_damage, List.filter_cons, hr, if_true,
          List.map_cons, List.sum_cons, sub_sub]
      · simp only [Function.comp_apply, hr, if_false, List.filter_cons,
          Bool.false_eq_true, Enemy.apply_damage]

/-- C2: one combat resolution decrements each enemy's hit points by
exactly the sum of `tower_type.damage` over the towers that have it in
range (every in-range tower hits every in-range enemy, no rate-of-fire
gating), and the result does not depend on the order the towers are
walked. -/
theorem combat_damage_sum (s : GameState) :
    (resolveCombat s).enemies =
      s.enemies.map (fun e =>
        { e with hit_points := e.hit_points -
            ((s.towers.filter fun t => t.inRange e).map
              fun t => t.tower_type.damage).sum }) ∧
    ∀ ts' : List Tower, ts'.Perm s.towers →
      (resolveCombat { s with towers := ts' }).enemies =
        (resolveCombat s).enemies := by
  constructor
  · exact foldl_combatTowerStep s.towers s.enemies
  · intro ts' hp
    show ts'.foldl combatTowerStep s.enemies = s.towers.foldl combatTowerStep s.enemies
    rw [foldl_combatTowerStep, foldl_combatTowerStep]
    apply List.map_congr_left
    intro e _
    have : ((ts'.filter fun t => t.inRange e).map fun t => t.tower_type.damage).sum =
        ((s.towers.filter fun t => t.inRange e).map fun t => t.tower_type.damage).sum :=
      ((hp.filter _).map _).sum_eq
    rw [this]

/-- Witness for C2's order-independence: swapping two towers leaves the
resolved enemy list identical. -/
theorem combat_damage_sum_witness :
    (resolveCombat { GameState.new with
        towers := [Tower.new (Point.new 1 0) archerTower, unitTower],
        enemies := [Enemy.new goblin] }).enemies =
      (resolveCombat { GameState.new with
        towers := [unitTower, Tower.new (Point.new 1 0) archerTower],
        enemies := [Enemy.new goblin] }).enemies :=
  (combat_damage_sum { GameState.new with
      towers := [unitTower, Tower.new (Point.new 1 0) archerTower],
      enemies := [Enemy.new goblin] }).2
    [Tower.new (Point.new 1 0) archerTower, unitTower]
    (List.Perm.swap unitTower (Tower.new (Point.new 1 0) archerTower) [])

/-- The squared distance is non-negative. -/
theorem distSq_nonneg (a b : Point) : 0 ≤ Point.distSq a b :=
  add_nonneg (sq_nonneg _) (sq_nonneg _)

/-- The decidable in-range test is exactly the square-root comparison of
the source's `distance_to(a, b) < r`. -/
theorem distLt_iff_sqrt (a b : Point) (r : ℚ) :
    Point.distLt a b r = true ↔
      Real.sqrt ((Point.distSq a b : ℚ) : ℝ) < (r : ℝ) := by
  unfold Point.distLt
  rw [decide_eq_true_iff]
  constructor
  · rintro ⟨hr, hlt⟩
    have hr' : (0:ℝ) < (r : ℝ) := by exact_mod_cast hr
    rw [Real.sqrt_lt' hr']
    exact_mod_cast hlt
  · intro hlt
    have hr' : (0:ℝ) < (r : ℝ) := lt_of_le_of_lt (Real.sqrt_nonneg _) hlt
    have hsq := (Real.sqrt_lt' hr').mp hlt
    exact ⟨by exact_mod_cast hr', by exact_mod_cast hsq⟩

/-- C3: the range test is a strict inequality — an enemy at distance
exactly equal to the tower's range is not damaged by the tower loop,
while one at distance strictly below the range takes exactly the
tower's damage. -/
theorem range_boundary (t : Tower) (e : Enemy) :
    (Real.sqrt ((Point.distSq t.position e.position : ℚ) : ℝ) =
        (t.tower_type.range : ℝ) →
      combatTowerStep [e] t = [e]) ∧
    (Real.sqrt ((Point.distSq t.position e.position : ℚ) : ℝ) <
        (t.tower_type.range : ℝ) →
      combatTowerStep [e] t = [e.apply_damage t.tower_type.damage]) := by
  constructor
  · intro heq
    have hnot : ¬ Real.sqrt ((Point.distSq t.position e.position : ℚ) : ℝ) <
        (t.tower_type.range : ℝ) := by rw [heq]; exact lt_irrefl _
    have hb : t.inRange e = false := by
      have := (distLt_iff_sqrt t.position e.position t.tower_type.range).not.mpr hnot
      exact Bool.not_eq_true _ ▸ eq_false_of_ne_true (by simpa [Tower.inRange] using this)
    simp [combatTowerStep, hb]
  · intro hlt
    have hb : t.inRange e = true := by
      show Point.distLt t.position e.position t.tower_type.range = true
      exact (distLt_iff_sqrt t.position e.position t.tower_type.range).mpr hlt
    simp [combatTowerStep, hb]

/-- Witness for C3: against the origin tower of range 1, a goblin at
`(1, 0)` (distance exactly 1) is untouched while a goblin at the origin
(distance 0) takes the 5 damage. -/
theorem range_boundary_witness :
    combatTowerStep [{ Enemy.new goblin with position := Point.new 1 0 }] unitTower =
      [{ Enemy.new goblin with position := Point.new 1 0 }] ∧
    combatTowerStep [Enemy.new goblin] unitTower =
      [(Enemy.new goblin).apply_damage unitTower.tower_type.damage] := by
  constructor
  · apply (range_boundary unitTower _).1
    have h1 : Point.distSq unitTower.position
        ({ Enemy.new goblin with position := Point.new 1 0 }).position = 1 := by
      norm_num [Point.distSq, Point.new, unitTower, Tower.new, Enemy.new, goblin]
    rw [h1]
    norm_num [unitTower, Tower.new, Real.sqrt_one]
  · apply (range_boundary unitTower _).2
    have h0 : Point.distSq unitTower.position (Enemy.new goblin).position = 0 := by
      norm_num [Point.distSq, Point.new, unitTower, Tower.new, Enemy.new, goblin]
    rw [h0]
    norm_num [unitTower, Tower.new, Real.sqrt_zero]

/-- C8: no core operation ever touches `lives`: every state reachable
from `GameState::new` by ticks, placements and camera moves still has
the initial 10 lives, so the Loss condition `lives <= 0` is
unreachable and the evaluator never reports Loss. -/
theorem lives_invariant (ets : List EnemyType) (s : GameState)
    (h : Reachable ets s) :
    s.lives = 10 ∧ ¬ s.lives ≤ 0 ∧ evaluateOutcome s ≠ Outcome.Loss := by
  have hl : s.lives = 10 := by
    induction h with
    | init => rfl
    | tick hr ht ih => exact (gameTick_fields ht).1.trans ih
    | place tt hr ih => exact (handleSpaceKey_lives _ tt).trans ih
    | camera k hr ih => exact (moveCamera_lives _ k).trans ih
  refine ⟨hl, by rw [hl]; norm_num, ?_⟩
  unfold evaluateOutcome
  by_cases he : s.enemies.isEmpty <;> simp [he, hl]

/-- Witness for C8: the initial state is reachable and satisfies the
invariant. -/
theorem lives_invariant_witness :
    GameState.new.lives = 10 ∧ ¬ GameState.new.lives ≤ 0 ∧
    evaluateOutcome GameState.new ≠ Outcome.Loss :=
  lives_invariant [goblin] GameState.new Reachable.init

/-- C10: a full simulation tick can change only the enemy list and the
resources — towers, camera position (and lives) come out unchanged. -/
theorem tick_preserves_frame (s : GameState) (ets : List EnemyType)
    (s' : GameState) (o : Outcome) (h : gameTick s ets = some (s', o)) :
    s'.towers = s.towers ∧ s'.camera_position = s.camera_position ∧
    s'.lives = s.lives :=
  ⟨(gameTick_fields h).2.1, (gameTick_fields h).2.2, (gameTick_fields h).1⟩

/-- Witness for C10: one concrete tick from the fresh state with the
goblin catalog spawns a goblin and moves it, leaving towers, camera and
lives as they were. -/
theorem tick_preserves_frame_witness :
    ∃ s' o, gameTick GameState.new [goblin] = some (s', o) ∧
      s'.towers = GameState.new.towers ∧
      s'.camera_position = GameState.new.camera_position ∧
      s'.lives = GameState.new.lives := by
  have h : gameTick GameState.new [goblin] = some
      ({ resources := 100, lives := 10, towers := [],
         enemies := [{ position := Point.new (-(1/50)) 0, hit_points := 10,
                       enemy_type := goblin }],
         camera_position := Point.new 0 0 }, Outcome.Ongoing) := by
    simp [gameTick, GameState.update, spawnWave, GameState.wave, GameState.new,
      Enemy.new, Enemy.advance, Enemy.advanceWith, time_since_last_frame,
      resolveCombat, combatTowerStep, settle, Enemy.is_alive, evaluateOutcome,
      goblin, Point.new, Nat.mod_self]
    norm_num
  exact ⟨_, _, h, (tick_preserves_frame _ _ _ _ h).1,
    (tick_preserves_frame _ _ _ _ h).2.1, (tick_preserves_frame _ _ _ _ h).2.2⟩

end TowerDefense
